import Mathlib

/-!
Shallow embedding of the go-dd-service-base repository core
(stack capturer, metric accumulator, instrumented execution wrapper,
process supervisor registry, multi-value context), translated from the
Go sources under visibility/.

Go strings are modelled as `List Char`; Go `float64` values appearing in
metrics as `Rat` (all the claims' arithmetic is exact in float64 as well:
additions of small integers and multiplications by powers of 2 and by
1e3/1e6 of small integers); `uint64` as `Nat` reduced mod 2^64; Go `nil`
and absence as `Option`; a Go `panic` used as a fatal error is an `Option`
result of `none`; non-deterministic inputs (the wall clock, the raw frames
returned by runtime.Callers) are explicit parameters.
-/

/-! ### Go strings helpers (package strings), over `List Char` -/

/-- Go strings.LastIndex(s, c) for a single-character needle:
byte index of the last occurrence of `c`, or -1. -/
def goLastIndexChar : List Char → Char → Int
  | [], _ => -1
  | x :: xs, c =>
    let r := goLastIndexChar xs c
    if r ≥ 0 then r + 1
    else if x = c then 0 else -1

/-- Go strings.Index(s, c) for a single-character needle:
byte index of the first occurrence of `c`, or -1. -/
def goIndexChar : List Char → Char → Int
  | [], _ => -1
  | x :: xs, c =>
    if x = c then 0
    else
      let r := goIndexChar xs c
      if r = -1 then -1 else r + 1

/-- Go strings.Count(s, c) for a single-character non-empty needle:
the number of occurrences of `c` in `s`. -/
def goCountChar (s : List Char) (c : Char) : Nat :=
  s.countP (fun x => x = c)

/-- Go strings.HasPrefix(s, p). -/
def goHasPre : List Char → List Char → Bool
  | _, [] => true
  | [], _ :: _ => false
  | x :: xs, y :: ys => x = y && goHasPre xs ys

/-! ### Stack capturer (ShortenedStackTrace) -/

/-- One raw frame as produced by runtime.CallersFrames: File, Line, Function
(the fully qualified label). -/
structure Frame where
  File : List Char
  Line : Nat
  Function : List Char
  deriving DecidableEq, Repr

/-- The payload of a Go panic (an interface{} value), abstracted by how the
type assertions in convertPanicMsg see it: nil, a fmt.Stringer (with its
String() result), an error (with its Error() result), a value implementing
both, or anything else (with its reflect.ValueOf(v).String() rendering). -/
inductive PanicPayload where
  | nilPayload : PanicPayload
  | stringer (s : String) : PanicPayload
  | errLike (msg : String) : PanicPayload
  | both (s msg : String) : PanicPayload
  | other (reflected : String) : PanicPayload
  deriving DecidableEq, Repr

/-- convertPanicMsg from log_helpers: nil check, then the fmt.Stringer type
assertion, then the error type assertion, then reflect.ValueOf(msg).String(). -/
def convertPanicMsg : PanicPayload → String
  | .nilPayload => "recovered from panic"
  | .stringer s => s
  | .both s _ => s
  | .errLike msg => msg
  | .other reflected => reflected

/-- ShortenedStackTrace: the skip-to-first-panic flag, the captured raw
frames (runtime.Callers is impure, so the captured frames are a parameter
of the model), and the normalized message. -/
structure ShortenedStackTrace where
  skipToFirstPanic : Bool
  stack : List Frame
  msg : String
  deriving DecidableEq, Repr

/-- NewShortenedStackTrace(skipFrames, skipToFirstPanic, msg): skipFrames
only affects which frames runtime.Callers hands back, so the model receives
the captured frames directly. -/
def NewShortenedStackTrace (skipToFirstPanic : Bool) (captured : List Frame)
    (msg : PanicPayload) : ShortenedStackTrace :=
  ⟨skipToFirstPanic, captured, convertPanicMsg msg⟩

/-- ShortenedStackTrace.parseFrame: strip the GOPATH build root from the file
path by counting the separators implied by the function label, then strip the
path and the package name from the label. The loop over
`i = strings.LastIndex(path[:i], "/")` is the fuel-indexed recursion
`parseFrameIdx`; `break` on -1 leaves i = -1 to counteract the +1 below. -/
def parseFrameIdx (path : List Char) : Nat → Int → Int
  | 0, i => i
  | n + 1, i =>
    let j := goLastIndexChar (path.take i.toNat) '/'
    if j = -1 then -1 else parseFrameIdx path n j

def parseFrame (frame : Frame) : List Char × Nat × List Char :=
  let path := frame.File
  let line := frame.Line
  let label := frame.Function
  let g := goCountChar label '/' + 2
  let i := parseFrameIdx path g (Int.ofNat path.length)
  let path := path.drop (i + 1).toNat
  let label := label.drop (goLastIndexChar label '/' + 1).toNat
  let label := label.drop (goIndexChar label '.' + 1).toNat
  (path, line, label)

/-- The panic-trampoline test applied in JSONStack, StringStack and
countPanics: the parsed path starts with runtime/panic and the parsed
label is gopanic. -/
def isPanicTrampolineFrame (frame : Frame) : Bool :=
  let (path, _, label) := parseFrame frame
  goHasPre path ("runtime/panic".toList) && label = "gopanic".toList

/-- countPanics: one full scan over the captured stack counting the
trampoline frames. The Go loop `for frame, more := frames.Next(); more; ...`
never processes the final frame (runtime.main / runtime.goexit), hence the
dropLast. -/
def countPanics (s : ShortenedStackTrace) : Nat :=
  countPanicsLoop s.stack.dropLast
where countPanicsLoop : List Frame → Nat
  | [] => 0
  | f :: fs => (if isPanicTrampolineFrame f then 1 else 0) + countPanicsLoop fs

/-- One structured stack element: Fl = "path:line", Fn = label. -/
structure StackElement where
  Fl : List Char
  Fn : List Char
  deriving DecidableEq, Repr

/-- The line rendered for one frame by JSONStack (and, joined with spaces
and newlines, by StringStack). -/
def renderElement (frame : Frame) : StackElement :=
  let (path, line, label) := parseFrame frame
  ⟨path ++ ":".toList ++ (toString line).toList, label⟩

/-- JSONStack: skip frames while panicsToSkip is positive, consuming one
credit per trampoline frame; the final frame of the capture is never
processed (dropLast). -/
def JSONStackLoop : List Frame → Nat → List StackElement
  | [], _ => []
  | f :: fs, k =>
    if k > 0 && isPanicTrampolineFrame f then JSONStackLoop fs (k - 1)
    else if k > 0 then JSONStackLoop fs k
    else renderElement f :: JSONStackLoop fs 0

def JSONStack (s : ShortenedStackTrace) : List StackElement :=
  let panicsToSkip := if s.skipToFirstPanic then countPanics s else 0
  JSONStackLoop s.stack.dropLast panicsToSkip

/-- StringStack: same traversal as JSONStack, rendering
"path:line label\n" per frame. -/
def StringStackLoop : List Frame → Nat → List Char
  | [], _ => []
  | f :: fs, k =>
    if k > 0 && isPanicTrampolineFrame f then StringStackLoop fs (k - 1)
    else if k > 0 then StringStackLoop fs k
    else
      let (path, line, label) := parseFrame f
      path ++ ":".toList ++ (toString line).toList ++ " ".toList ++ label
        ++ "\n".toList ++ StringStackLoop fs 0

def StringStack (s : ShortenedStackTrace) : List Char :=
  let panicsToSkip := if s.skipToFirstPanic then countPanics s else 0
  StringStackLoop s.stack.dropLast panicsToSkip

/-! ### Metric accumulator (metrics.go) -/

/-- cloudwatch.StandardUnit is a string type; the constructors below are the
values the source switches on, and `other` covers every remaining string
(the default branch of Normalize). -/
inductive StandardUnit where
  | seconds | microseconds | milliseconds
  | bytes | kilobytes | megabytes | gigabytes | terabytes
  | bits | kilobits | megabits | gigabits | terabits
  | percent | count
  | bytesSecond | kilobytesSecond | megabytesSecond | gigabytesSecond
  | terabytesSecond
  | bitsSecond | kilobitsSecond | megabitsSecond | gigabitsSecond
  | terabitsSecond
  | countSecond
  | noUnit
  | other (s : String)
  deriving DecidableEq, Repr

/-- MetricEntry: Val float64 (modelled as Rat), Unit, Timestamp (a time.Time,
modelled as a Nat tick). -/
structure MetricEntry where
  Val : Rat
  Unit : StandardUnit
  Timestamp : Nat
  deriving DecidableEq, Repr

/-- MetricEntry.Normalize: convert to the smallest unit of the family
(microseconds, bytes, bits, the per-second rates, counts and percent
unchanged); unknown units fall through to StandardUnitNone. -/
def MetricEntry.Normalize (e : MetricEntry) : Rat × StandardUnit :=
  match e.Unit with
  | .seconds => (e.Val * 1000000, .microseconds)
  | .microseconds => (e.Val, .microseconds)
  | .milliseconds => (e.Val * 1000, .microseconds)
  | .bytes => (e.Val, .bytes)
  | .kilobytes => (e.Val * 1024, .bytes)
  | .megabytes => (e.Val * 1024 * 1024, .bytes)
  | .gigabytes => (e.Val * 1024 * 1024 * 1024, .bytes)
  | .terabytes => (e.Val * 1024 * 1024 * 1024 * 1024, .bytes)
  | .bits => (e.Val, .bits)
  | .kilobits => (e.Val * 1024, .bits)
  | .megabits => (e.Val * 1024 * 1024, .bits)
  | .gigabits => (e.Val * 1024 * 1024 * 1024, .bits)
  | .terabits => (e.Val * 1024 * 1024 * 1024 * 1024, .bits)
  | .percent => (e.Val, .percent)
  | .count => (e.Val, .count)
  | .bytesSecond => (e.Val, .bytesSecond)
  | .kilobytesSecond => (e.Val * 1024, .bytesSecond)
  | .megabytesSecond => (e.Val * 1024 * 1024, .bytesSecond)
  | .gigabytesSecond => (e.Val * 1024 * 1024 * 1024, .bytesSecond)
  | .terabytesSecond => (e.Val * 1024 * 1024 * 1024 * 1024, .bytesSecond)
  | .bitsSecond => (e.Val, .bitsSecond)
  | .kilobitsSecond => (e.Val * 1024, .bitsSecond)
  | .megabitsSecond => (e.Val * 1024 * 1024, .bitsSecond)
  | .gigabitsSecond => (e.Val * 1024 * 1024 * 1024, .bitsSecond)
  | .terabitsSecond => (e.Val * 1024 * 1024 * 1024 * 1024, .bitsSecond)
  | .countSecond => (e.Val, .countSecond)
  | .noUnit => (e.Val, .noUnit)
  | .other _ => (e.Val, .noUnit)

/-- MetricsContext: OpName and the map from metric name to entry. The mutex,
the statsd sink and the span handle carry no claim-relevant state. -/
structure MetricsContext where
  OpName : String
  Metrics : String → Option MetricEntry

/-- MakeMetricContext installs a fresh accumulator with an empty map. -/
def MakeMetricContext (opName : String) : MetricsContext :=
  ⟨opName, fun _ => none⟩

/-- MetricsContext.GetMetric: zero value and StandardUnitNone when absent. -/
def MetricsContext.GetMetric (m : MetricsContext) (name : String) :
    Rat × StandardUnit :=
  match m.Metrics name with
  | none => (0, .noUnit)
  | some e => (e.Val, e.Unit)

def MetricsContext.GetMetricVal (m : MetricsContext) (name : String) : Rat :=
  (m.GetMetric name).1

/-- MetricsContext.AddMetric: a fresh name stores the entry with the given
unit and value at time.Now() (the `now` parameter); an existing entry must
carry the same unit — PanicIfF on a mismatch is the fatal `none` — and
accumulates the value additively, keeping unit and timestamp. -/
def MetricsContext.AddMetric (m : MetricsContext) (name : String) (val : Rat)
    (unit : StandardUnit) (now : Nat) : Option MetricsContext :=
  match m.Metrics name with
  | none =>
    some ⟨m.OpName, fun n =>
      if n = name then some ⟨val, unit, now⟩ else m.Metrics n⟩
  | some cur =>
    if cur.Unit ≠ unit then none
    else some ⟨m.OpName, fun n =>
      if n = name then some ⟨cur.Val + val, cur.Unit, cur.Timestamp⟩
      else m.Metrics n⟩

/-- MetricsContext.SetMetric: unconditional overwrite. -/
def MetricsContext.SetMetric (m : MetricsContext) (name : String) (val : Rat)
    (unit : StandardUnit) (now : Nat) : MetricsContext :=
  ⟨m.OpName, fun n => if n = name then some ⟨val, unit, now⟩ else m.Metrics n⟩

def MetricsContext.AddCount (m : MetricsContext) (name : String) (val : Rat)
    (now : Nat) : Option MetricsContext :=
  m.AddMetric name val .count now

/-- MetricsContext.AddDuration: duration.Seconds() is the Rat parameter. -/
def MetricsContext.AddDuration (m : MetricsContext) (name : String)
    (durationSeconds : Rat) (now : Nat) : Option MetricsContext :=
  m.AddMetric name durationSeconds .seconds now

/-! ### Instrumented execution wrapper (runner.go) -/

/-- The observable outcome of a body function: a nil return, a non-nil
error, or a panic carrying a payload of type α. -/
inductive FnOutcome (α : Type) where
  | ok : FnOutcome α
  | fail (e : String) : FnOutcome α
  | panics (p : α) : FnOutcome α

/-- How an instrumented call terminates for its caller: a normal return
carrying the body's error (or nil), or an unwinding panic re-raising the
payload. -/
inductive InstrResult (α : Type) where
  | ret (e : Option String) : InstrResult α
  | panicked (p : α) : InstrResult α
  deriving DecidableEq, Repr

/-- InstrumentWithMetrics: pre-set Success=0, Error=0, Fault=1, start the
Time benchmark, run the body; on panic the deferred bench.Done() still runs
but the Fault decrement and the Success/Error classification are never
reached and the panic propagates; on a normal return decrement Fault and set
Success or Error, then the deferred bench.Done() adds the elapsed duration.
The body is abstracted by its outcome; a fatal AddMetric panic is `none`. -/
def InstrumentWithMetrics (α : Type) (m : MetricsContext) (out : FnOutcome α)
    (now : Nat) (elapsedSeconds : Rat) :
    Option (MetricsContext × InstrResult α) :=
  (m.AddCount "Success" 0 now).bind fun m1 =>
  (m1.AddCount "Error" 0 now).bind fun m2 =>
  (m2.AddCount "Fault" 1 now).bind fun m3 =>
  match out with
  | .panics p =>
    (m3.AddDuration "Time" elapsedSeconds now).map fun m4 =>
      (m4, .panicked p)
  | .ok =>
    (m3.AddCount "Fault" (-1) now).bind fun m4 =>
    (m4.AddCount "Success" 1 now).bind fun m5 =>
    (m5.AddDuration "Time" elapsedSeconds now).map fun m6 =>
      (m6, .ret none)
  | .fail e =>
    (m3.AddCount "Fault" (-1) now).bind fun m4 =>
    (m4.AddCount "Error" 1 now).bind fun m5 =>
    (m5.AddDuration "Time" elapsedSeconds now).map fun m6 =>
      (m6, .ret (some e))

/-- The span operations RunInstrumented performs, in order. The metric
copies to the span and the statsd sink are recorded as events (their
contents are the accumulator's, exported via Normalize). -/
inductive SpanEvent where
  | startSpan (name : String) : SpanEvent
  | tagResourceName (v : String) : SpanEvent
  | tagClientType (v : String) : SpanEvent
  | setOperationName (v : String) : SpanEvent
  | copyMetricsToSpan : SpanEvent
  | copyMetricsToStatsd (clientType : String) : SpanEvent
  | tagErrorStack (v : List Char) : SpanEvent
  | tagPanicValue (v : String) : SpanEvent
  | finishOk : SpanEvent
  | finishWithError (e : String) : SpanEvent
  deriving DecidableEq, Repr

/-- RunInstrumented: start the span, tag resource name / client type, set
the operation name; run the body; during unwinding the deferred
CopyToSpan and CopyToStatsd run first (they were deferred last), then the
recover defer `if p := recover(); p != nil { ... }`. A panic payload is an
interface{} that may itself be nil: it is modelled as `Option α`, nil being
`none`. Under this module's go 1.13 semantics recover() on panic(nil)
stops the unwinding and returns nil, so the guard fails and the else
branch runs: `err` was never assigned (the body panicked inside
`err = fn(ctx)`), the span finishes cleanly and the function returns the
zero-value nil error — the nil panic is swallowed. On a non-nil payload
the handler tags ext.ErrorStack with the de-noised StringStack of a
skip-to-first-panic capture whose message is fmt.Sprintf of the payload,
tags "panic" with the formatted payload, finishes the span with the
gopanic error, and re-raises the same payload; on a normal return it
finishes with the body's error or cleanly. `fmtV` models fmt.Sprintf
applied to the non-nil payload value, `captured` the frames
runtime.Callers(3) hands to NewShortenedStackTrace. A fmt.Sprintf result
is a plain Go string, which implements neither fmt.Stringer nor error,
so convertPanicMsg hits the reflect branch: payload `.other (fmtV v)`. -/
def RunInstrumented (α : Type) (name clientType : String)
    (captured : List Frame) (fmtV : α → String)
    (out : FnOutcome (Option α)) :
    List SpanEvent × InstrResult (Option α) :=
  let pre : List SpanEvent :=
    [.startSpan name, .tagResourceName name, .tagClientType clientType,
     .setOperationName name]
  match out with
  | .panics p =>
    match p with
    | some v =>
      let stack := NewShortenedStackTrace true captured (.other (fmtV v))
      (pre ++ [.copyMetricsToSpan, .copyMetricsToStatsd clientType,
               .tagErrorStack (StringStack stack), .tagPanicValue (fmtV v),
               .finishWithError ("gopanic: " ++ fmtV v)],
       .panicked (some v))
    | none =>
      (pre ++ [.copyMetricsToSpan, .copyMetricsToStatsd clientType,
               .finishOk],
       .ret none)
  | .ok =>
    (pre ++ [.copyMetricsToSpan, .copyMetricsToStatsd clientType, .finishOk],
     .ret none)
  | .fail e =>
    (pre ++ [.copyMetricsToSpan, .copyMetricsToStatsd clientType,
             .finishWithError e],
     .ret (some e))

/-! ### Process supervisor registry (process_registry.go) -/

/-- ProcessContext: the name and the identity of its Done channel (channels
compared by identity; the Parent back-reference is passed explicitly to the
registry operations). -/
structure ProcessContext where
  Name : String
  Id : Nat
  deriving DecidableEq, Repr

/-- The registry's claim-relevant state: numRunning is a uint64 (mod 2^64),
processes maps a registered name to the Id of its ProcessContext, wgCount
is the sync.WaitGroup counter. -/
structure ProcessRegistry where
  numRunning : Nat
  processes : String → Option Nat
  wgCount : Int

def NewProcessRegistry : ProcessRegistry :=
  ⟨0, fun _ => none, 0⟩

/-- ProcessContext.prepareRun: under the registry lock, fail if the name is
present; otherwise insert, increment numRunning (uint64 arithmetic) and
bump the wait group. -/
def ProcessContext.prepareRun (pc : ProcessContext) (p : ProcessRegistry) :
    ProcessRegistry × Bool :=
  match p.processes pc.Name with
  | some _ => (p, false)
  | none =>
    (⟨(p.numRunning + 1) % 2 ^ 64,
      fun n => if n = pc.Name then some pc.Id else p.processes n,
      p.wgCount + 1⟩, true)

/-- markDone: delete the name, add ^uint64(0) (i.e. subtract one mod 2^64)
to numRunning, and release the wait group. -/
def markDone (p : ProcessRegistry) (s : String) : ProcessRegistry :=
  ⟨(p.numRunning + (2 ^ 64 - 1)) % 2 ^ 64,
   fun n => if n = s then none else p.processes n,
   p.wgCount - 1⟩

/-- ProcessContext.TryRun: register via prepareRun; only on success spawn
the goroutine (the Bool also reports whether a task was spawned). -/
def ProcessContext.TryRun (pc : ProcessContext) (p : ProcessRegistry) :
    ProcessRegistry × Bool :=
  let (p1, res) := pc.prepareRun p
  if res then (p1, true) else (p1, false)

/-- ProcessContext.Run: TryRun, panicking (fatal, `none`) on a name
collision. -/
def ProcessContext.Run (pc : ProcessContext) (p : ProcessRegistry) :
    Option ProcessRegistry :=
  let (p1, res) := pc.TryRun p
  if res then some p1 else none

/-- ProcessContext.RunPeriodicProcess calls prepareRun but discards its
result and spawns the periodic goroutine unconditionally; the returned Bool
records that the task was spawned. -/
def ProcessContext.RunPeriodicProcess (pc : ProcessContext)
    (p : ProcessRegistry) : ProcessRegistry × Bool :=
  let (p1, _res) := pc.prepareRun p
  (p1, true)

/-- HasProcess. -/
def ProcessRegistry.HasProcess (p : ProcessRegistry) (name : String) : Bool :=
  (p.processes name).isSome

/-! ### MultiValueContext (a context carrying several key/value pairs) -/

/-- Go map[interface{}]interface{} with interface{} keys and values
modelled as Nat: a stored value may itself be nil (the inner Option);
an absent key reads as nil. -/
def GoMap : Type := Nat → Option (Option Nat)

/-- Go `mp[x]` rvalue: the stored value, or nil when absent. -/
def goMapIndex (mp : GoMap) (x : Nat) : Option Nat :=
  match mp x with
  | some v => v
  | none => none

/-- The population loop of NewMultiValueContext, verbatim from the source:
`mp[dataList[i*2]] = mp[dataList[i*2+1]]` — the right-hand side is an index
into the map under construction, not the value from the list. -/
def mvcBuildLoop (dataList : List Nat) (mp : GoMap) : Nat → GoMap
  | 0 => mp
  | i + 1 =>
    let mp1 := mvcBuildLoop dataList mp i
    let k := dataList.getD (i * 2) 0
    let v := goMapIndex mp1 (dataList.getD (i * 2 + 1) 0)
    fun n => if n = k then some v else mp1 n

/-- NewMultiValueContext: PanicIfF on an odd-length list (fatal, `none`),
then populate the map with the loop above over i < len/2. -/
def NewMultiValueContext (dataList : List Nat) : Option GoMap :=
  if dataList.length % 2 ≠ 0 then none
  else some (mvcBuildLoop dataList (fun _ => none) (dataList.length / 2))

/-- MultiValueContext.Value: a present key (even one holding nil) answers
from the map; an absent key delegates to the parent context. -/
def MultiValueContext.Value (mp : GoMap) (parent : Nat → Option Nat)
    (key : Nat) : Option Nat :=
  match mp key with
  | some val => val
  | none => parent key

/-! ### Spec-side definition for claim C9 (refinement check) -/

/-- Modelled from the spec's wording of message normalization, in the
spec's case order: Stringer first, then error-like, then nil to the generic
message, then the reflective conversion. Compared against the source's
convertPanicMsg, which tests nil first. -/
def convertPanicMsgSpecOrder : PanicPayload → String
  | .stringer s => s
  | .both s _ => s
  | .errLike msg => msg
  | .nilPayload => "recovered from panic"
  | .other reflected => reflected

/-! ## Theorems for the claims -/

/-- Helper: a run of frames with no panic trampoline contributes nothing to
countPanics. -/
theorem countPanicsLoop_eq_zero (l : List Frame)
    (h : ∀ f ∈ l, isPanicTrampolineFrame f = false) :
    countPanics.countPanicsLoop l = 0 := by
  induction l with
  | nil => rfl
  | cons f fs ih =>
    simp only [countPanics.countPanicsLoop, h f (by simp)]
    simpa using ih (fun g hg => h g (by simp [hg]))

/-- C5: Normalize maps gigabits/second to bits/second scaled by 1024³,
kilobytes to bytes scaled by 1024, milliseconds to microseconds scaled by
1000 (so 125 Gb/s → 125 × 1024³ b/s, 2 kB → 2048 B, 500 ms → 500000 µs),
and passes count and percent through with value and unit unchanged. -/
theorem claimC5_normalize_units (v : Rat) (ts : Nat) :
    MetricEntry.Normalize ⟨v, .gigabitsSecond, ts⟩
      = (v * 1024 ^ 3, .bitsSecond) ∧
    MetricEntry.Normalize ⟨125, .gigabitsSecond, ts⟩
      = (125 * 1024 ^ 3, .bitsSecond) ∧
    MetricEntry.Normalize ⟨v, .kilobytes, ts⟩ = (v * 1024, .bytes) ∧
    MetricEntry.Normalize ⟨2, .kilobytes, ts⟩ = (2048, .bytes) ∧
    MetricEntry.Normalize ⟨v, .milliseconds, ts⟩
      = (v * 1000, .microseconds) ∧
    MetricEntry.Normalize ⟨500, .milliseconds, ts⟩
      = (500000, .microseconds) ∧
    MetricEntry.Normalize ⟨v, .count, ts⟩ = (v, .count) ∧
    MetricEntry.Normalize ⟨v, .percent, ts⟩ = (v, .percent) :=
  ⟨by simp [MetricEntry.Normalize]; ring,
   by norm_num [MetricEntry.Normalize],
   rfl,
   by norm_num [MetricEntry.Normalize],
   rfl,
   by norm_num [MetricEntry.Normalize],
   rfl, rfl⟩

/-- C9: panic-message normalization is total on every payload shape and its
case analysis agrees with the spec's case order: a Stringer payload (also
when it is simultaneously error-like) yields its String(), an error-like
payload its message, a nil payload the generic "recovered from panic", and
anything else its reflective conversion. -/
theorem claimC9_convert_panic_msg :
    (∀ pl, convertPanicMsg pl = convertPanicMsgSpecOrder pl) ∧
    (∀ s, convertPanicMsg (.stringer s) = s) ∧
    (∀ s msg, convertPanicMsg (.both s msg) = s) ∧
    (∀ msg, convertPanicMsg (.errLike msg) = msg) ∧
    convertPanicMsg .nilPayload = "recovered from panic" ∧
    (∀ r, convertPanicMsg (.other r) = r) := by
  refine ⟨fun pl => ?_, fun s => rfl, fun s msg => rfl, fun msg => rfl,
    rfl, fun r => rfl⟩
  cases pl <;> rfl

set_option maxRecDepth 8192 in
/-- C7 counterexample: a frame with file /home/user/src/pkg/sub/file.go and
function label pkg/sub.Type.Method does NOT render as
"pkg/sub/file.go:42 Method" — the label keeps its type qualifier. -/
theorem claimC7_counterexample :
    String.mk (StringStack ⟨false,
      [⟨"/home/user/src/pkg/sub/file.go".toList, 42,
        "pkg/sub.Type.Method".toList⟩,
       ⟨"/usr/local/go/src/runtime/proc.go".toList, 250,
        "runtime.goexit".toList⟩], "m"⟩)
      ≠ "pkg/sub/file.go:42 Method\n" := by decide

set_option maxRecDepth 16384 in
/-- C7 amended: stack-frame rendering strips the build-root prefix from the
file path by counting the separators implied by the function label, and
strips the package qualification (the label up to and including the first
dot past the last slash): a frame with file /home/user/src/pkg/sub/file.go
and label pkg/sub.Type.Method renders, at every line number, as
"pkg/sub/file.go:<line> Type.Method". -/
theorem claimC7_frame_rendering (line : Nat) :
    parseFrame ⟨"/home/user/src/pkg/sub/file.go".toList, line,
      "pkg/sub.Type.Method".toList⟩
      = ("pkg/sub/file.go".toList, line, "Type.Method".toList) ∧
    renderElement ⟨"/home/user/src/pkg/sub/file.go".toList, line,
      "pkg/sub.Type.Method".toList⟩
      = ⟨"pkg/sub/file.go:".toList ++ (toString line).toList,
         "Type.Method".toList⟩ ∧
    String.mk (StringStack ⟨false,
      [⟨"/home/user/src/pkg/sub/file.go".toList, 42,
        "pkg/sub.Type.Method".toList⟩,
       ⟨"/usr/local/go/src/runtime/proc.go".toList, 250,
        "runtime.goexit".toList⟩], "m"⟩)
      = "pkg/sub/file.go:42 Type.Method\n" := by
  refine ⟨rfl, rfl, rfl⟩

/-- C2 counterexample: a body that calls panic(nil) refutes the universal
"never swallows": recover() returns nil under go 1.13, the p != nil guard
fails, the span finishes cleanly with no error-stack or panic tag, and
RunInstrumented returns a nil error instead of re-raising — the panic is
silently swallowed. -/
theorem claimC2_counterexample :
    RunInstrumented Nat "op" "normal" [] (fun v => toString v)
        (.panics none) =
      ([.startSpan "op", .tagResourceName "op", .tagClientType "normal",
        .setOperationName "op", .copyMetricsToSpan,
        .copyMetricsToStatsd "normal", .finishOk],
       .ret none) := rfl

/-- C2 amended: for every body that panics with a NON-NIL payload p,
RunInstrumented emits, after the entry events and the deferred metric
copies, the error-stack tag holding the de-noised (skip-to-first-panic)
string stack, the "panic" tag with the formatted raw payload, and an
errored span finish, and terminates by re-raising the very same payload —
a non-nil panic is annotated and propagated, never swallowed; a nil panic
payload is recovered silently and a nil error returned. -/
theorem claimC2_run_instrumented_panic (α : Type) (name ct : String)
    (captured : List Frame) (fmtV : α → String) (v : α) :
    RunInstrumented α name ct captured fmtV (.panics (some v)) =
      ([.startSpan name, .tagResourceName name, .tagClientType ct,
        .setOperationName name, .copyMetricsToSpan, .copyMetricsToStatsd ct,
        .tagErrorStack
          (StringStack (NewShortenedStackTrace true captured
            (.other (fmtV v)))),
        .tagPanicValue (fmtV v),
        .finishWithError ("gopanic: " ++ fmtV v)],
       .panicked (some v)) := rfl

/-- C1: InstrumentWithMetrics on a fresh accumulator: a nil body return
yields Success=1, Error=0, Fault=0; a non-nil error yields Success=0,
Error=1, Fault=0 with the error returned unchanged; a panicking body leaves
the pre-set Fault=1 with Success=0 and Error=0, the correcting decrement
never being reached. -/
theorem claimC1_instrument_with_metrics (α : Type) (op e : String) (p : α)
    (now : Nat) (el : Rat) :
    (∃ m, InstrumentWithMetrics α (MakeMetricContext op) .ok now el
        = some (m, .ret none) ∧
      m.GetMetric "Success" = (1, .count) ∧
      m.GetMetric "Error" = (0, .count) ∧
      m.GetMetric "Fault" = (0, .count)) ∧
    (∃ m, InstrumentWithMetrics α (MakeMetricContext op) (.fail e) now el
        = some (m, .ret (some e)) ∧
      m.GetMetric "Success" = (0, .count) ∧
      m.GetMetric "Error" = (1, .count) ∧
      m.GetMetric "Fault" = (0, .count)) ∧
    (∃ m, InstrumentWithMetrics α (MakeMetricContext op) (.panics p) now el
        = some (m, .panicked p) ∧
      m.GetMetric "Success" = (0, .count) ∧
      m.GetMetric "Error" = (0, .count) ∧
      m.GetMetric "Fault" = (1, .count)) := by
  refine ⟨⟨_, rfl, ?_, ?_, ?_⟩, ⟨_, rfl, ?_, ?_, ?_⟩, ⟨_, rfl, ?_, ?_, ?_⟩⟩ <;>
    simp [MetricsContext.GetMetric]

/-- C4: the first AddMetric for a name stores the value and establishes the
unit; a later AddMetric with the same unit accumulates additively; a later
AddMetric with a different unit is the fatal PanicIfF path (`none`), never
silently tolerated. -/
theorem claimC4_add_metric_unit (m : MetricsContext) (name : String)
    (v v0 : Rat) (u u0 : StandardUnit) (now t0 : Nat) :
    (m.Metrics name = none →
      ∃ m', m.AddMetric name v u now = some m' ∧
        m'.Metrics name = some ⟨v, u, now⟩) ∧
    (m.Metrics name = some ⟨v0, u, t0⟩ →
      ∃ m', m.AddMetric name v u now = some m' ∧
        m'.Metrics name = some ⟨v0 + v, u, t0⟩) ∧
    (m.Metrics name = some ⟨v0, u0, t0⟩ → u0 ≠ u →
      m.AddMetric name v u now = none) := by
  refine ⟨fun h => ?_, fun h => ?_, fun h hne => ?_⟩
  · exact ⟨⟨m.OpName, fun n =>
        if n = name then some ⟨v, u, now⟩ else m.Metrics n⟩,
      by simp [MetricsContext.AddMetric, h], by simp⟩
  · exact ⟨⟨m.OpName, fun n =>
        if n = name then some ⟨v0 + v, u, t0⟩ else m.Metrics n⟩,
      by simp [MetricsContext.AddMetric, h], by simp⟩
  · simp [MetricsContext.AddMetric, h, hne]

/-- Witness for C4: on an accumulator holding x = 2 count, adding 1 count
accumulates to 3, and adding 1 seconds is fatal; on a fresh accumulator the
first add establishes the unit. -/
theorem claimC4_add_metric_unit_witness :
    (∃ m', (MakeMetricContext "op").AddMetric "x" 1 .count 5 = some m' ∧
      m'.Metrics "x" = some ⟨1, .count, 5⟩) ∧
    (∃ m', MetricsContext.AddMetric
        ⟨"op", fun n => if n = "x" then some ⟨2, .count, 3⟩ else none⟩
        "x" 1 .count 5 = some m' ∧
      m'.Metrics "x" = some ⟨2 + 1, .count, 3⟩) ∧
    MetricsContext.AddMetric
        ⟨"op", fun n => if n = "x" then some ⟨2, .count, 3⟩ else none⟩
        "x" 1 .seconds 5 = none :=
  ⟨(claimC4_add_metric_unit (MakeMetricContext "op") "x" 1 0 .count .count
      5 0).1 rfl,
   (claimC4_add_metric_unit
      ⟨"op", fun n => if n = "x" then some ⟨2, .count, 3⟩ else none⟩
      "x" 1 2 .count .count 5 3).2.1 rfl,
   (claimC4_add_metric_unit
      ⟨"op", fun n => if n = "x" then some ⟨2, .count, 3⟩ else none⟩
      "x" 1 2 .seconds .count 5 3).2.2 rfl (by decide)⟩

/-- C6: while a name is registered, TryRun returns false leaving the
registry value untouched, Run is the fatal panic (`none`), markDone removes
the name, and a subsequent registration of the same name succeeds and
installs the new process context. -/
theorem claimC6_duplicate_name (p : ProcessRegistry) (pc : ProcessContext)
    (i : Nat) (h : p.processes pc.Name = some i) :
    pc.TryRun p = (p, false) ∧
    pc.Run p = none ∧
    (markDone p pc.Name).processes pc.Name = none ∧
    (pc.prepareRun (markDone p pc.Name)).2 = true ∧
    (pc.prepareRun (markDone p pc.Name)).1.processes pc.Name
      = some pc.Id := by
  have hprep : pc.prepareRun p = (p, false) := by
    simp [ProcessContext.prepareRun, h]
  have hdone : (markDone p pc.Name).processes pc.Name = none := by
    simp [markDone]
  refine ⟨?_, ?_, hdone, ?_, ?_⟩
  · simp [ProcessContext.TryRun, hprep]
  · simp [ProcessContext.Run, ProcessContext.TryRun, hprep]
  · simp [ProcessContext.prepareRun, hdone]
  · simp [ProcessContext.prepareRun, hdone]

/-- Witness for C6 on a registry with worker registered under Id 1 and a
second context named worker with Id 2. -/
theorem claimC6_duplicate_name_witness :
    ProcessContext.TryRun ⟨"worker", 2⟩
        ⟨1, fun n => if n = "worker" then some 1 else none, 1⟩
      = (⟨1, fun n => if n = "worker" then some 1 else none, 1⟩, false) ∧
    ProcessContext.Run ⟨"worker", 2⟩
        ⟨1, fun n => if n = "worker" then some 1 else none, 1⟩ = none ∧
    (markDone ⟨1, fun n => if n = "worker" then some 1 else none, 1⟩
        "worker").processes "worker" = none ∧
    (ProcessContext.prepareRun ⟨"worker", 2⟩
        (markDone ⟨1, fun n => if n = "worker" then some 1 else none, 1⟩
          "worker")).2 = true ∧
    (ProcessContext.prepareRun ⟨"worker", 2⟩
        (markDone ⟨1, fun n => if n = "worker" then some 1 else none, 1⟩
          "worker")).1.processes "worker" = some 2 :=
  claimC6_duplicate_name
    ⟨1, fun n => if n = "worker" then some 1 else none, 1⟩
    ⟨"worker", 2⟩ 1 rfl

/-- C8: with skipToFirstPanic set, a stack of two panic-trampoline frames,
then the original panic site, then trampoline-free remaining frames, has
countPanics = 2 (the full pre-scan counts both trampolines) and its first
rendered element is the original panic site, not a trampoline. -/
theorem claimC8_skip_to_first_panic (t1 t2 site : Frame) (rest : List Frame)
    (msg : String)
    (h1 : isPanicTrampolineFrame t1 = true)
    (h2 : isPanicTrampolineFrame t2 = true)
    (h3 : isPanicTrampolineFrame site = false)
    (h4 : ∀ f ∈ rest.dropLast, isPanicTrampolineFrame f = false)
    (h5 : rest ≠ []) :
    countPanics ⟨true, t1 :: t2 :: site :: rest, msg⟩ = 2 ∧
    (JSONStack ⟨true, t1 :: t2 :: site :: rest, msg⟩).head?
      = some (renderElement site) := by
  obtain ⟨r, rs, rfl⟩ := List.exists_cons_of_ne_nil h5
  have hd : (t1 :: t2 :: site :: r :: rs).dropLast
      = t1 :: t2 :: site :: (r :: rs).dropLast := rfl
  have hz : countPanics.countPanicsLoop ((r :: rs).dropLast) = 0 :=
    countPanicsLoop_eq_zero _ h4
  have hc : countPanics ⟨true, t1 :: t2 :: site :: r :: rs, msg⟩ = 2 := by
    simp [countPanics, hd, countPanics.countPanicsLoop, h1, h2, h3, hz]
  refine ⟨hc, ?_⟩
  rw [JSONStack]
  simp only [if_pos rfl]
  rw [hc, hd]
  simp [JSONStackLoop, h1, h2, h3]

set_option maxRecDepth 16384 in
/-- Witness for C8: two concrete runtime/panic.go gopanic frames above the
concrete faulting frame pkg/sub.doWork, with runtime.goexit at the bottom. -/
theorem claimC8_skip_to_first_panic_witness :
    countPanics ⟨true,
      [⟨"/usr/local/go/src/runtime/panic.go".toList, 971,
        "runtime.gopanic".toList⟩,
       ⟨"/usr/local/go/src/runtime/panic.go".toList, 969,
        "runtime.gopanic".toList⟩,
       ⟨"/home/user/src/pkg/sub/file.go".toList, 10,
        "pkg/sub.doWork".toList⟩,
       ⟨"/usr/local/go/src/runtime/proc.go".toList, 250,
        "runtime.goexit".toList⟩], "m"⟩ = 2 ∧
    (JSONStack ⟨true,
      [⟨"/usr/local/go/src/runtime/panic.go".toList, 971,
        "runtime.gopanic".toList⟩,
       ⟨"/usr/local/go/src/runtime/panic.go".toList, 969,
        "runtime.gopanic".toList⟩,
       ⟨"/home/user/src/pkg/sub/file.go".toList, 10,
        "pkg/sub.doWork".toList⟩,
       ⟨"/usr/local/go/src/runtime/proc.go".toList, 250,
        "runtime.goexit".toList⟩], "m"⟩).head?
      = some (renderElement ⟨"/home/user/src/pkg/sub/file.go".toList, 10,
          "pkg/sub.doWork".toList⟩) :=
  claimC8_skip_to_first_panic _ _ _ _ _ (by decide) (by decide) (by decide)
    (by simp) (by simp)

/-- C3: the code at the claim's input: with worker already registered
(Id 1), RunPeriodicProcess for a second context named worker discards the
prepareRun failure and still spawns the loop (the Bool component), leaving
the first registration in place; when the spawned duplicate terminates, its
deferred markDone removes the first process's entry, and after both
processes' markDone calls the wait-group counter is -1 (a negative
sync.WaitGroup counter panics at runtime). -/
theorem claimC3_periodic_ignores_collision :
    (ProcessContext.RunPeriodicProcess ⟨"worker", 2⟩
        (ProcessContext.prepareRun ⟨"worker", 1⟩ NewProcessRegistry).1).2
      = true ∧
    (ProcessContext.RunPeriodicProcess ⟨"worker", 2⟩
        (ProcessContext.prepareRun ⟨"worker", 1⟩
          NewProcessRegistry).1).1.processes "worker" = some 1 ∧
    (markDone (ProcessContext.RunPeriodicProcess ⟨"worker", 2⟩
        (ProcessContext.prepareRun ⟨"worker", 1⟩ NewProcessRegistry).1).1
        "worker").processes "worker" = none ∧
    (markDone (ProcessContext.RunPeriodicProcess ⟨"worker", 2⟩
        (ProcessContext.prepareRun ⟨"worker", 1⟩ NewProcessRegistry).1).1
        "worker").wgCount = 0 ∧
    (markDone (markDone (ProcessContext.RunPeriodicProcess ⟨"worker", 2⟩
        (ProcessContext.prepareRun ⟨"worker", 1⟩ NewProcessRegistry).1).1
        "worker") "worker").wgCount = -1 :=
  ⟨rfl, rfl, rfl, rfl, rfl⟩

/-- C10: the code at the claim's input: NewMultiValueContext(parent, 7, 42)
stores nil under key 7 (the population loop reads the value from the map
under construction instead of the argument list), so Value(7) answers nil
rather than 42; lookups of keys not supplied do delegate to the parent. -/
theorem claimC10_value_returns_nil :
    ∃ mp, NewMultiValueContext [7, 42] = some mp ∧
      mp 7 = some none ∧
      MultiValueContext.Value mp (fun k => if k = 5 then some 55 else none) 7
        = none ∧
      MultiValueContext.Value mp (fun k => if k = 5 then some 55 else none) 5
        = some 55 :=
  ⟨_, rfl, rfl, rfl, rfl⟩
